import Mathlib

/-!
Formal model of the Traffic_accidents_alert repository.

Part 1 embeds the `MLService` class (object detection, collision analysis,
severity and confidence scoring).  The JavaScript code draws from
`Math.random()`; here every draw is an explicit parameter: `r : ℕ → ℝ` is
the sequence of unit-interval draws consumed in order by
`performObjectDetection`, and `U : ℕ → ℕ → ℝ` gives, for the vehicle pair
`(i, j)`, the value of `Math.random() * 0.3` drawn inside
`calculateCollisionConfidence` (a value in `[0, 0.3)` when the draw is in
`[0, 1)`).  Timestamps (`new Date()`, `Date.now()`) are a `now : ℕ`
parameter.  JavaScript floating point is idealised as real arithmetic.

Part 2 embeds the Express route handlers over the Supabase tables
(`pending_alerts`, `alerts`, `streams`) as transitions on an explicit
`ServerState`; the `setInterval` polling loops spawned by the streams
router are recorded in a `loops` list (one entry per spawned interval).
-/

namespace TrafficWatch

/-! ### Part 1: MLService (server ML service, collision analyzer) -/

/-- A bounding box as produced by object detection. -/
structure BoundingBox where
  x : ℝ
  y : ℝ
  width : ℝ
  height : ℝ

/-- A tracked object; `cls` models the JavaScript field `class`. -/
structure Detection where
  cls : String
  confidence : ℝ
  boundingBox : BoundingBox
  id : String

instance : Inhabited Detection := ⟨⟨"", 0, ⟨0, 0, 0, 0⟩, ""⟩⟩

/-- Source: `this.detectionClasses.vehicle`. -/
def vehicleClasses : List String := ["car", "truck", "bus", "motorcycle", "bicycle"]

/-- Source: `this.detectionClasses.vehicle.includes(d.class)`. -/
def isVehicle (d : Detection) : Bool := vehicleClasses.contains d.cls

/-- Source: `detections.filter(d => this.detectionClasses.vehicle.includes(d.class))`. -/
def vehiclesOf (detections : List Detection) : List Detection := detections.filter isVehicle

/-- Source: `MLService.calculateDistance` (Euclidean center-to-center distance). -/
noncomputable def calculateDistance (box1 box2 : BoundingBox) : ℝ :=
  Real.sqrt ((box1.x + box1.width / 2 - (box2.x + box2.width / 2)) ^ 2 +
    (box1.y + box1.height / 2 - (box2.y + box2.height / 2)) ^ 2)

/-- Source: `MLService.calculateCollisionConfidence`; `u` is the random
variance term `baseCollision = Math.random() * 0.3`. -/
noncomputable def calculateCollisionConfidence (vehicle1 vehicle2 : Detection)
    (distance u : ℝ) : ℝ :=
  min 1 (vehicle1.confidence * vehicle2.confidence * max 0 (1 - distance / 200) * 1.2 + u)

/-- Source: `MLService.calculateSeverity` (the `distance` argument is unused
in the source as well). -/
noncomputable def calculateSeverity (confidence distance : ℝ) : String :=
  if confidence > 0.85 then "critical"
  else if confidence > 0.75 then "high"
  else if confidence > 0.65 then "medium"
  else "low"

/-- Midpoint location recorded on a collision candidate. -/
structure Point where
  x : ℝ
  y : ℝ

/-- A collision candidate, as pushed onto `accidents` in `detectAccidents`. -/
structure Accident where
  vehicle1 : String
  vehicle2 : String
  confidence : ℝ
  distance : ℝ
  location : Point
  severity : String
  timestamp : ℕ

/-- The record literal pushed in `detectAccidents` for a colliding pair. -/
noncomputable def mkAccident (v1 v2 : Detection) (distance confidence : ℝ) (now : ℕ) :
    Accident :=
  { vehicle1 := v1.cls
    vehicle2 := v2.cls
    confidence := confidence
    distance := distance
    location := ⟨(v1.boundingBox.x + v2.boundingBox.x) / 2,
      (v1.boundingBox.y + v2.boundingBox.y) / 2⟩
    severity := calculateSeverity confidence distance
    timestamp := now }

/-- Body of the inner pair loop of `detectAccidents`: the candidate produced
for one vehicle pair, if any.  Thresholds are
`maxDistanceBetweenVehicles = 100` and `collisionConfidenceThreshold = 0.7`. -/
noncomputable def accidentForPair (u : ℝ) (v1 v2 : Detection) (now : ℕ) : Option Accident :=
  let distance := calculateDistance v1.boundingBox v2.boundingBox
  if distance < 100 then
    let c := calculateCollisionConfidence v1 v2 distance u
    if c > 0.7 then some (mkAccident v1 v2 distance c now) else none
  else none

/-- Index pairs `(i, j)` with `i < j < n`, in the order visited by the nested
`for` loops of `detectAccidents`. -/
def pairIndices (n : ℕ) : List (ℕ × ℕ) :=
  (List.range n).flatMap fun i =>
    ((List.range n).filter fun j => decide (i < j)).map fun j => (i, j)

/-- The candidate computed for the pair of filtered-vehicle indices `(i, j)`. -/
noncomputable def pairCandidate (U : ℕ → ℕ → ℝ) (now : ℕ) (dets : List Detection)
    (i j : ℕ) : Option Accident :=
  accidentForPair (U i j) ((vehiclesOf dets).getD i default)
    ((vehiclesOf dets).getD j default) now

/-- Source: `MLService.detectAccidents` (`minVehicles = 2`). -/
noncomputable def detectAccidents (U : ℕ → ℕ → ℝ) (now : ℕ)
    (detections : List Detection) : List Accident :=
  let vehicles := vehiclesOf detections
  if vehicles.length < 2 then []
  else (pairIndices vehicles.length).filterMap fun p => pairCandidate U now detections p.1 p.2

/-- Source: `MLService.calculateAccidentConfidence`; the `reduce` sum is
modelled as `(accidents.map Accident.confidence).sum`. -/
noncomputable def calculateAccidentConfidence (accidents : List Accident) : ℝ :=
  if accidents.length = 0 then 0
  else
    let avgConfidence := (accidents.map Accident.confidence).sum / accidents.length
    min 1 (avgConfidence + if 1 < accidents.length then 0.1 else 0)

/-- Frame-context summary returned by `analyzeFrameContext`. -/
structure FrameAnalysis where
  vehicleCount : ℕ
  personCount : ℕ
  objectCount : ℕ
  averageConfidence : ℝ
  crowdLevel : String

/-- Source: `MLService.analyzeFrameContext`. -/
noncomputable def analyzeFrameContext (detections : List Detection) : FrameAnalysis :=
  let vehicleCount := (detections.filter isVehicle).length
  { vehicleCount := vehicleCount
    personCount := (detections.filter fun d => d.cls == "person").length
    objectCount := detections.length
    averageConfidence :=
      if 0 < detections.length then (detections.map Detection.confidence).sum / detections.length
      else 0
    crowdLevel :=
      if vehicleCount > 4 then "heavy" else if vehicleCount > 2 then "moderate" else "light" }

/-- The detection result of one tick (the object returned by `processFrame`). -/
structure FrameResult where
  detections : List Detection
  accidentDetected : Bool
  accidents : List Accident
  confidence : ℝ
  timestamp : ℕ
  frameAnalysis : FrameAnalysis

/-- The result record built by `processFrame` from a list of detections
(source lines: `accidentDetected: accidents.length > 0`, `confidence:
accidents.length > 0 ? this.calculateAccidentConfidence(accidents) : 0`). -/
noncomputable def frameResultOf (U : ℕ → ℕ → ℝ) (now : ℕ)
    (detections : List Detection) : FrameResult :=
  let accidents := detectAccidents U now detections
  { detections := detections
    accidentDetected := decide (0 < accidents.length)
    accidents := accidents
    confidence := if 0 < accidents.length then calculateAccidentConfidence accidents else 0
    timestamp := now
    frameAnalysis := analyzeFrameContext detections }

/-- Source: `const vehicleCount = Math.floor(Math.random() * 5) + 2` with
draw index 0. -/
noncomputable def vehicleCountOf (r : ℕ → ℝ) : ℕ := (⌊r 0 * 5⌋).toNat + 2

/-- One iteration of the vehicle generation loop of `performObjectDetection`;
vehicle `i` consumes draws `6 * i + 1` (class) through `6 * i + 6` (height). -/
noncomputable def genVehicle (r : ℕ → ℝ) (now i : ℕ) : Detection :=
  { cls := vehicleClasses.getD (⌊r (6 * i + 1) * 5⌋).toNat "car"
    confidence := 0.85 + r (6 * i + 2) * 0.15
    boundingBox :=
      { x := r (6 * i + 3) * 800
        y := r (6 * i + 4) * 400
        width := 80 + r (6 * i + 5) * 120
        height := 60 + r (6 * i + 6) * 100 }
    id := "vehicle_" ++ toString i ++ "_" ++ toString now }

/-- The vehicle list generated by the loop of `performObjectDetection`. -/
noncomputable def genVehicles (r : ℕ → ℝ) (now : ℕ) : List Detection :=
  (List.range (vehicleCountOf r)).map (genVehicle r now)

/-- The pedestrian object optionally pushed by `performObjectDetection`;
`base` is the index of the `Math.random() > 0.7` gate draw. -/
noncomputable def genPerson (r : ℕ → ℝ) (now base : ℕ) : Detection :=
  { cls := "person"
    confidence := 0.75 + r (base + 1) * 0.25
    boundingBox := { x := r (base + 2) * 800, y := r (base + 3) * 400, width := 30, height := 70 }
    id := "person_" ++ toString now }

/-- Source: `MLService.performObjectDetection`. -/
noncomputable def performObjectDetection (r : ℕ → ℝ) (now : ℕ) : List Detection :=
  if r (6 * vehicleCountOf r + 1) > 0.7 then
    genVehicles r now ++ [genPerson r now (6 * vehicleCountOf r + 1)]
  else genVehicles r now

/-- Source: `MLService.processFrame` (detection followed by analysis). -/
noncomputable def processFrame (r : ℕ → ℝ) (U : ℕ → ℕ → ℝ) (now : ℕ) : FrameResult :=
  frameResultOf U now (performObjectDetection r now)

/-! ### Part 2: route handlers over the Supabase tables

The pending-alerts router (`/:id/approve`, `/:id/reject`) and the streams
router (`/:id/start`).  Record ids are natural numbers, timestamps are
natural numbers, numeric columns are rationals.  A Supabase
`update(...).eq(id, ...)` is modelled as a map over the table updating every
row with that id; `insert` appends.  The `confidence.toFixed(2)` decimal
rendering inside the description string is abstracted to `toString`. -/

/-- The `detection_data` jsonb payload of a pending alert, restricted to the
fields the approve handler reads.  Each field is optional, matching the
handler's `||` fallbacks. -/
structure DetectionData where
  location : Option String
  latitude : Option ℚ
  longitude : Option ℚ
  severity : Option String
  accident_count : Option ℕ
deriving DecidableEq

/-- A row of the `pending_alerts` table. -/
structure PendingAlert where
  id : ℕ
  stream_id : ℕ
  detection_data : DetectionData
  frame_timestamp : ℕ
  confidence : ℚ
  status : String
  approved_by : Option String
  approved_at : Option ℕ
  rejection_reason : Option String
deriving DecidableEq

/-- A row of the `alerts` table (the columns the approve handler writes). -/
structure AlertRec where
  stream_id : ℕ
  location : String
  latitude : Option ℚ
  longitude : Option ℚ
  severity : String
  type : String
  status : String
  confidence : ℚ
  detection_data : DetectionData
  description : String
  sent_at : ℕ
deriving DecidableEq

/-- A row of the `streams` table. -/
structure StreamRec where
  id : ℕ
  url : String
  location : String
  latitude : Option ℚ
  longitude : Option ℚ
  status : String
  is_processing : Bool
  last_processed : Option ℕ
  accident_count : ℕ
deriving DecidableEq

/-- The mutable server-side state: the three tables plus the multiset of
live `setInterval` polling loops (one entry per `processStreamWithML` call,
holding the id of the stream it polls). -/
structure ServerState where
  pending_alerts : List PendingAlert
  alerts : List AlertRec
  streams : List StreamRec
  loops : List ℕ
deriving DecidableEq

/-- Error taxonomy named by the specification.  The route handlers in the
source only ever produce `notFound` (a missing row); no handler performs the
status checks that would produce `invalidState` or `alreadyMonitoring`. -/
inductive ApiError where
  | notFound
  | invalidState
  | alreadyMonitoring
deriving DecidableEq

/-- Fetch of a `pending_alerts` row by id (`select().eq(id).single()`). -/
def findPending (l : List PendingAlert) (id : ℕ) : Option PendingAlert :=
  l.find? fun p => p.id == id

/-- Fetch of a `streams` row by id. -/
def findStream (l : List StreamRec) (id : ℕ) : Option StreamRec :=
  l.find? fun st => st.id == id

/-- JavaScript truthiness of `pendingAlert.detection_data.accident_count || 1`:
a missing value or the (falsy) value `0` both yield `1`. -/
def jsOrOne (n : Option ℕ) : ℕ :=
  match n with
  | some k => if k = 0 then 1 else k
  | none => 1

/-- The `alertData` record literal built by the approve handler from the
fetched pending alert. -/
def alertOfPending (pa : PendingAlert) (now : ℕ) : AlertRec :=
  { stream_id := pa.stream_id
    location := pa.detection_data.location.getD "Unknown"
    latitude := pa.detection_data.latitude
    longitude := pa.detection_data.longitude
    severity := pa.detection_data.severity.getD "high"
    type := "accident"
    status := "sent"
    confidence := pa.confidence
    detection_data := pa.detection_data
    description := "Accident detected with " ++ toString pa.confidence ++ " confidence"
    sent_at := now }

/-- Source: `router.post(:id/approve)` of the pending-alerts router.  The
handler fetches the pending alert (404 when missing), then — with no check
of its current status — marks it approved, inserts the final alert built
from the fetched record, and updates the owning stream's row to status
`alert` with `accident_count: pendingAlert.detection_data.accident_count || 1`. -/
def approvePendingAlert (s : ServerState) (id : ℕ) (approved_by : Option String)
    (now : ℕ) : Except ApiError ServerState :=
  match findPending s.pending_alerts id with
  | none => .error .notFound
  | some pa =>
    .ok { s with
      pending_alerts := s.pending_alerts.map fun p =>
        if p.id = id then
          { p with
            status := "approved"
            approved_by := some (approved_by.getD "system")
            approved_at := some now }
        else p
      alerts := s.alerts ++ [alertOfPending pa now]
      streams := s.streams.map fun st =>
        if st.id = pa.stream_id then
          { st with
            status := "alert"
            accident_count := jsOrOne pa.detection_data.accident_count }
        else st }

/-- Source: `router.post(:id/reject)` of the pending-alerts router.  The
handler updates the row (404 when missing) with no check of its current
status; it touches neither `alerts` nor `streams`. -/
def rejectPendingAlert (s : ServerState) (id : ℕ)
    (approved_by rejection_reason : Option String) (now : ℕ) :
    Except ApiError ServerState :=
  match findPending s.pending_alerts id with
  | none => .error .notFound
  | some _ =>
    .ok { s with
      pending_alerts := s.pending_alerts.map fun p =>
        if p.id = id then
          { p with
            status := "rejected"
            rejection_reason := some (rejection_reason.getD "User rejected")
            approved_by := some (approved_by.getD "system")
            approved_at := some now }
        else p }

/-- Source: `router.post(:id/start)` of the streams router.  The handler
fetches the stream (404 when missing), then — with no check of its current
status or `is_processing` flag — marks it active and calls
`processStreamWithML`, which unconditionally spawns a new `setInterval`
polling loop (recorded by appending to `loops`). -/
def startMonitoring (s : ServerState) (id : ℕ) (now : ℕ) : Except ApiError ServerState :=
  match findStream s.streams id with
  | none => .error .notFound
  | some _ =>
    .ok { s with
      streams := s.streams.map fun st =>
        if st.id = id then
          { st with status := "active", is_processing := true, last_processed := some now }
        else st
      loops := s.loops ++ [id] }

/-! ### Helper lemmas -/

/-- Updating every row with a given key through `f` commutes with `find?` on
that key, provided `f` preserves the key. -/
lemma find?_map_ite {α : Type} (key : α → ℕ) (id : ℕ) (f : α → α)
    (hf : ∀ a, key (f a) = key a) (l : List α) :
    (l.map fun a => if key a = id then f a else a).find? (fun a => key a == id) =
      ((l.find? fun a => key a == id).map fun a => if key a = id then f a else a) := by
  induction l with
  | nil => rfl
  | cons x l ih =>
    by_cases hx : key x = id
    · have h1 : (key (if key x = id then f x else x) == id) = true := by
        rw [if_pos hx, hf, hx, beq_self_eq_true]
      have h2 : (key x == id) = true := by rw [hx, beq_self_eq_true]
      simp [List.find?_cons, h1, h2]
    · have h1 : (key (if key x = id then f x else x) == id) = false := by
        rw [if_neg hx]
        exact beq_eq_false_iff_ne.mpr hx
      have h2 : (key x == id) = false := beq_eq_false_iff_ne.mpr hx
      simp [List.find?_cons, h1, h2, ih]

/-- After a keyed update of `pending_alerts`, the fetched row is the updated
version of the previously fetched row. -/
lemma findPending_map_update (l : List PendingAlert) (id : ℕ)
    (f : PendingAlert → PendingAlert) (hf : ∀ p, (f p).id = p.id)
    (pa : PendingAlert) (h : findPending l id = some pa) :
    findPending (l.map fun p => if p.id = id then f p else p) id = some (f pa) := by
  have hid : pa.id = id := by simpa using List.find?_some h
  have key := find?_map_ite PendingAlert.id id f hf l
  rw [findPending] at h ⊢
  rw [key, h]
  simp [hid]

/-- After a keyed update of `streams`, the fetched row is the updated version
of the previously fetched row. -/
lemma findStream_map_update (l : List StreamRec) (id : ℕ)
    (f : StreamRec → StreamRec) (hf : ∀ st, (f st).id = st.id)
    (st : StreamRec) (h : findStream l id = some st) :
    findStream (l.map fun x => if x.id = id then f x else x) id = some (f st) := by
  have hid : st.id = id := by simpa using List.find?_some h
  have key := find?_map_ite StreamRec.id id f hf l
  rw [findStream] at h ⊢
  rw [key, h]
  simp [hid]

/-! ### Claim theorems -/

/-- C6: severity classification is a total, non-overlapping partition: for
every confidence `c` (and any distance `d`), the tier is `critical` iff
`c > 0.85`, `high` iff `0.75 < c ≤ 0.85`, `medium` iff `0.65 < c ≤ 0.75`,
and `low` iff `c ≤ 0.65`; in particular `c = 0.85` maps to `high`. -/
theorem calculateSeverity_partition (c d : ℝ) :
    ((calculateSeverity c d = "critical" ↔ 0.85 < c) ∧
      (calculateSeverity c d = "high" ↔ 0.75 < c ∧ c ≤ 0.85) ∧
      (calculateSeverity c d = "medium" ↔ 0.65 < c ∧ c ≤ 0.75) ∧
      (calculateSeverity c d = "low" ↔ c ≤ 0.65)) ∧
    calculateSeverity (0.85 : ℝ) d = "high" := by
  constructor
  · unfold calculateSeverity
    split_ifs with h1 h2 h3
    · exact ⟨iff_of_true rfl h1,
        iff_of_false (by decide) (by rintro ⟨-, hle⟩; linarith),
        iff_of_false (by decide) (by rintro ⟨-, hle⟩; linarith),
        iff_of_false (by decide) (by intro hle; linarith)⟩
    · exact ⟨iff_of_false (by decide) h1,
        iff_of_true rfl ⟨h2, not_lt.mp h1⟩,
        iff_of_false (by decide) (by rintro ⟨-, hle⟩; linarith),
        iff_of_false (by decide) (by intro hle; linarith)⟩
    · exact ⟨iff_of_false (by decide) h1,
        iff_of_false (by decide) (by rintro ⟨hgt, -⟩; exact h2 hgt),
        iff_of_true rfl ⟨h3, not_lt.mp h2⟩,
        iff_of_false (by decide) (by intro hle; linarith)⟩
    · exact ⟨iff_of_false (by decide) h1,
        iff_of_false (by decide) (by rintro ⟨hgt, -⟩; exact h2 hgt),
        iff_of_false (by decide) (by rintro ⟨hgt, -⟩; exact h3 hgt),
        iff_of_true rfl (not_lt.mp h3)⟩
  · unfold calculateSeverity
    rw [if_neg (by norm_num), if_pos (by norm_num)]

/-- C7: for input confidences in `[0, 1]`, non-negative distance, and a
variance term `u ∈ [0, 0.3)`, the computed collision confidence lies in
`[0, 1]`. -/
theorem calculateCollisionConfidence_bounds (v1 v2 : Detection) (d u : ℝ)
    (h1 : 0 ≤ v1.confidence) (h2 : v1.confidence ≤ 1)
    (h3 : 0 ≤ v2.confidence) (h4 : v2.confidence ≤ 1)
    (hd : 0 ≤ d) (hu0 : 0 ≤ u) (hu1 : u < 0.3) :
    0 ≤ calculateCollisionConfidence v1 v2 d u ∧
      calculateCollisionConfidence v1 v2 d u ≤ 1 := by
  unfold calculateCollisionConfidence
  constructor
  · apply le_min (by norm_num)
    have hmax : (0 : ℝ) ≤ max 0 (1 - d / 200) := le_max_left 0 _
    have hprod : 0 ≤ v1.confidence * v2.confidence * max 0 (1 - d / 200) * 1.2 := by
      have := mul_nonneg (mul_nonneg h1 h3) hmax
      linarith [mul_nonneg this (by norm_num : (0 : ℝ) ≤ 1.2)]
    linarith
  · exact min_le_left _ _

/-- A detection with confidence 1, used for concrete witnesses. -/
def unitDet : Detection := ⟨"car", 1, ⟨0, 0, 0, 0⟩, "u"⟩

/-- Witness for C7 at the extreme point: distance 0, both confidences 1,
variance term 0. -/
theorem calculateCollisionConfidence_bounds_witness :
    0 ≤ calculateCollisionConfidence unitDet unitDet 0 0 ∧
      calculateCollisionConfidence unitDet unitDet 0 0 ≤ 1 :=
  calculateCollisionConfidence_bounds unitDet unitDet 0 0
    (by norm_num [unitDet]) (by norm_num [unitDet])
    (by norm_num [unitDet]) (by norm_num [unitDet])
    le_rfl le_rfl (by norm_num)

/-- C5: with fewer than 2 vehicle-class detections, the analyzer returns no
candidates, and the tick result has accident-detected false and aggregate
confidence 0. -/
theorem detectAccidents_fewVehicles (U : ℕ → ℕ → ℝ) (now : ℕ) (dets : List Detection)
    (h : (vehiclesOf dets).length < 2) :
    detectAccidents U now dets = [] ∧
    (frameResultOf U now dets).accidents = [] ∧
    (frameResultOf U now dets).accidentDetected = false ∧
    (frameResultOf U now dets).confidence = 0 := by
  have hd : detectAccidents U now dets = [] := by
    unfold detectAccidents
    simp [h]
  refine ⟨hd, ?_, ?_, ?_⟩ <;> simp [frameResultOf, hd]

/-- Witness for C5 on the empty detection list. -/
theorem detectAccidents_fewVehicles_witness :
    (vehiclesOf ([] : List Detection)).length < 2 ∧
    detectAccidents (fun _ _ => (0 : ℝ)) 3 [] = [] ∧
    (frameResultOf (fun _ _ => (0 : ℝ)) 3 []).accidents = [] ∧
    (frameResultOf (fun _ _ => (0 : ℝ)) 3 []).accidentDetected = false ∧
    (frameResultOf (fun _ _ => (0 : ℝ)) 3 []).confidence = 0 := by
  have hlen : (vehiclesOf ([] : List Detection)).length < 2 := by
    simp [vehiclesOf]
  exact ⟨hlen, detectAccidents_fewVehicles (fun _ _ => (0 : ℝ)) 3 [] hlen⟩

/-- C8: in every tick result, accident-detected holds exactly when the
candidate list is non-empty, and the aggregate confidence is 0 with no
candidates and otherwise the mean candidate confidence, plus 0.1 when there
is more than one candidate, capped at 1. -/
theorem frameResult_aggregate (U : ℕ → ℕ → ℝ) (now : ℕ) (dets : List Detection) :
    ((frameResultOf U now dets).accidentDetected = true ↔
      (frameResultOf U now dets).accidents ≠ []) ∧
    (frameResultOf U now dets).confidence =
      (if (frameResultOf U now dets).accidents.length = 0 then 0
        else
          min 1
            (((frameResultOf U now dets).accidents.map Accident.confidence).sum /
                (frameResultOf U now dets).accidents.length +
              if 1 < (frameResultOf U now dets).accidents.length then 0.1 else 0)) := by
  constructor
  · simp [frameResultOf, List.length_pos]
  · show (if 0 < (detectAccidents U now dets).length then
        calculateAccidentConfidence (detectAccidents U now dets) else 0) = _
    have hacc : (frameResultOf U now dets).accidents = detectAccidents U now dets := rfl
    rw [hacc]
    rcases Nat.eq_zero_or_pos (detectAccidents U now dets).length with h0 | hpos
    · rw [if_neg (by omega), if_pos h0]
    · rw [if_pos hpos, if_neg (by omega)]
      unfold calculateAccidentConfidence
      rw [if_neg (by omega)]

/-- Membership in `pairIndices n` is exactly the ordered in-range pairs. -/
lemma mem_pairIndices {n : ℕ} {p : ℕ × ℕ} : p ∈ pairIndices n ↔ p.1 < p.2 ∧ p.2 < n := by
  obtain ⟨i, j⟩ := p
  simp only [pairIndices, List.mem_flatMap, List.mem_map, List.mem_filter, List.mem_range,
    decide_eq_true_eq, Prod.mk.injEq]
  constructor
  · rintro ⟨a, ha, b, ⟨hb, hab⟩, rfl, rfl⟩
    exact ⟨hab, hb⟩
  · rintro ⟨hij, hjn⟩
    exact ⟨i, lt_trans hij hjn, j, ⟨hjn, hij⟩, rfl, rfl⟩

/-- The inner loop body produces a candidate exactly under the distance and
confidence thresholds, and the candidate is the pushed record. -/
lemma accidentForPair_eq_some {u : ℝ} {v1 v2 : Detection} {now : ℕ} {a : Accident} :
    accidentForPair u v1 v2 now = some a ↔
      calculateDistance v1.boundingBox v2.boundingBox < 100 ∧
      0.7 < calculateCollisionConfidence v1 v2
          (calculateDistance v1.boundingBox v2.boundingBox) u ∧
      a = mkAccident v1 v2 (calculateDistance v1.boundingBox v2.boundingBox)
          (calculateCollisionConfidence v1 v2
            (calculateDistance v1.boundingBox v2.boundingBox) u) now := by
  simp only [accidentForPair]
  split_ifs with h1 h2
  · simp only [Option.some_inj]
    constructor
    · intro h
      exact ⟨h1, h2, h.symm⟩
    · rintro ⟨-, -, rfl⟩
      rfl
  · exact iff_of_false (by simp) (by rintro ⟨-, hc, -⟩; exact h2 hc)
  · exact iff_of_false (by simp) (by rintro ⟨hd, -, -⟩; exact h1 hd)

/-- C4: a collision candidate is produced for the ordered vehicle pair
`(i, j)` exactly when the center distance is below 100 and the collision
confidence formula exceeds 0.7; the recorded candidate is the pushed record
(in particular its confidence equals the formula), so pairs at distance 100
or more never contribute. -/
theorem detectAccidents_pair_characterization (U : ℕ → ℕ → ℝ) (now : ℕ)
    (dets : List Detection) (a : Accident)
    (hU : ∀ i j, 0 ≤ U i j ∧ U i j < 0.3) :
    (a ∈ detectAccidents U now dets ↔
      ∃ i j, i < j ∧ j < (vehiclesOf dets).length ∧
        pairCandidate U now dets i j = some a) ∧
    (∀ i j,
      pairCandidate U now dets i j = some a ↔
        calculateDistance ((vehiclesOf dets).getD i default).boundingBox
            ((vehiclesOf dets).getD j default).boundingBox < 100 ∧
        0.7 < calculateCollisionConfidence ((vehiclesOf dets).getD i default)
            ((vehiclesOf dets).getD j default)
            (calculateDistance ((vehiclesOf dets).getD i default).boundingBox
              ((vehiclesOf dets).getD j default).boundingBox) (U i j) ∧
        a = mkAccident ((vehiclesOf dets).getD i default)
            ((vehiclesOf dets).getD j default)
            (calculateDistance ((vehiclesOf dets).getD i default).boundingBox
              ((vehiclesOf dets).getD j default).boundingBox)
            (calculateCollisionConfidence ((vehiclesOf dets).getD i default)
              ((vehiclesOf dets).getD j default)
              (calculateDistance ((vehiclesOf dets).getD i default).boundingBox
                ((vehiclesOf dets).getD j default).boundingBox) (U i j)) now) := by
  constructor
  · unfold detectAccidents
    by_cases hlen : (vehiclesOf dets).length < 2
    · simp only [hlen, if_true, List.not_mem_nil, false_iff]
      rintro ⟨i, j, hij, hj, -⟩
      omega
    · simp only [hlen, if_false, List.mem_filterMap]
      constructor
      · rintro ⟨p, hp, hpa⟩
        have hmem := mem_pairIndices.mp hp
        exact ⟨p.1, p.2, hmem.1, hmem.2, hpa⟩
      · rintro ⟨i, j, hij, hj, hc⟩
        exact ⟨(i, j), mem_pairIndices.mpr ⟨hij, hj⟩, hc⟩
  · intro i j
    exact accidentForPair_eq_some

/-- Witness for C4: with draws fixed at 0 and no detections, no candidate is
a member of the analyzer output. -/
theorem detectAccidents_pair_characterization_witness :
    (∀ i j : ℕ, 0 ≤ (fun _ _ => (0 : ℝ)) i j ∧ (fun _ _ => (0 : ℝ)) i j < 0.3) ∧
    ¬ mkAccident default default 0 0 0 ∈ detectAccidents (fun _ _ => (0 : ℝ)) 0 [] := by
  refine ⟨fun i j => by norm_num, ?_⟩
  intro hmem
  obtain ⟨i, j, hij, hj, -⟩ :=
    (detectAccidents_pair_characterization (fun _ _ => (0 : ℝ)) 0 []
      (mkAccident default default 0 0 0) (fun i j => by norm_num)).1.mp hmem
  have hnil : (vehiclesOf ([] : List Detection)).length = 0 := rfl
  omega

/-- A unit draw multiplied by 5 and floored lands in `[0, 4]`, so it is a
valid index into the five vehicle subtypes. -/
lemma floorIdx_lt_five (x : ℝ) (h0 : 0 ≤ x) (h1 : x < 1) : (⌊x * 5⌋).toNat < 5 := by
  have hlt : ⌊x * 5⌋ < 5 := Int.floor_lt.mpr (by push_cast; nlinarith)
  have hge : 0 ≤ ⌊x * 5⌋ := Int.floor_nonneg.mpr (by nlinarith)
  omega

/-- The generated vehicle count lies in `[2, 6]` when the draw is in `[0, 1)`. -/
lemma vehicleCountOf_bounds (r : ℕ → ℝ) (h0 : 0 ≤ r 0) (h1 : r 0 < 1) :
    2 ≤ vehicleCountOf r ∧ vehicleCountOf r ≤ 6 := by
  unfold vehicleCountOf
  have := floorIdx_lt_five (r 0) h0 h1
  omega

/-- Any in-range `getD` access into the vehicle subtype list is a member. -/
lemma getD_vehicleClasses_mem (k : ℕ) (hk : k < 5) :
    vehicleClasses.getD k "car" ∈ vehicleClasses := by
  interval_cases k <;> decide

/-- C10: for every sequence of unit-interval draws, the generator returns
between 2 and 6 vehicles, each with a class from the vehicle-subtype set and
confidence in `[0.85, 1)`, followed by exactly one pedestrian with
confidence in `[0.75, 1)` when the gate draw exceeds 0.7 and by nothing
otherwise; the operation is total. -/
theorem performObjectDetection_spec (r : ℕ → ℝ) (now : ℕ)
    (hr : ∀ n, 0 ≤ r n ∧ r n < 1) :
    ∃ vs ps, performObjectDetection r now = vs ++ ps ∧
      2 ≤ vs.length ∧ vs.length ≤ 6 ∧
      (∀ d ∈ vs, d.cls ∈ vehicleClasses ∧ 0.85 ≤ d.confidence ∧ d.confidence < 1) ∧
      ((0.7 < r (6 * vs.length + 1) ∧
          ∃ p, ps = [p] ∧ p.cls = "person" ∧ 0.75 ≤ p.confidence ∧ p.confidence < 1) ∨
        (r (6 * vs.length + 1) ≤ 0.7 ∧ ps = [])) := by
  have hlen : (genVehicles r now).length = vehicleCountOf r := by
    simp [genVehicles]
  have hcount := vehicleCountOf_bounds r (hr 0).1 (hr 0).2
  have hveh : ∀ d ∈ genVehicles r now,
      d.cls ∈ vehicleClasses ∧ 0.85 ≤ d.confidence ∧ d.confidence < 1 := by
    intro d hd
    simp only [genVehicles, List.mem_map, List.mem_range] at hd
    obtain ⟨i, -, rfl⟩ := hd
    simp only [genVehicle]
    refine ⟨getD_vehicleClasses_mem _
      (floorIdx_lt_five _ (hr (6 * i + 1)).1 (hr (6 * i + 1)).2), ?_, ?_⟩
    · have h0 := (hr (6 * i + 2)).1
      nlinarith
    · have h0 := (hr (6 * i + 2)).1
      have h1 := (hr (6 * i + 2)).2
      nlinarith
  by_cases hgate : r (6 * vehicleCountOf r + 1) > 0.7
  · refine ⟨genVehicles r now, [genPerson r now (6 * vehicleCountOf r + 1)],
      ?_, ?_, ?_, hveh, ?_⟩
    · unfold performObjectDetection
      rw [if_pos hgate]
    · rw [hlen]; exact hcount.1
    · rw [hlen]; exact hcount.2
    · left
      rw [hlen]
      refine ⟨hgate, genPerson r now (6 * vehicleCountOf r + 1), rfl, rfl, ?_, ?_⟩
      · simp only [genPerson]
        have h0 := (hr (6 * vehicleCountOf r + 1 + 1)).1
        nlinarith
      · simp only [genPerson]
        have h0 := (hr (6 * vehicleCountOf r + 1 + 1)).1
        have h1 := (hr (6 * vehicleCountOf r + 1 + 1)).2
        nlinarith
  · refine ⟨genVehicles r now, [], ?_, ?_, ?_, hveh, ?_⟩
    · unfold performObjectDetection
      rw [if_neg hgate, List.append_nil]
    · rw [hlen]; exact hcount.1
    · rw [hlen]; exact hcount.2
    · right
      rw [hlen]
      exact ⟨not_lt.mp hgate, rfl⟩

/-- Witness for C10 with all draws fixed at 0 (two vehicles, no pedestrian). -/
theorem performObjectDetection_spec_witness :
    (∀ n : ℕ, 0 ≤ (fun _ => (0 : ℝ)) n ∧ (fun _ => (0 : ℝ)) n < 1) ∧
    ∃ vs ps, performObjectDetection (fun _ => (0 : ℝ)) 0 = vs ++ ps ∧
      2 ≤ vs.length ∧ vs.length ≤ 6 ∧
      (∀ d ∈ vs, d.cls ∈ vehicleClasses ∧ 0.85 ≤ d.confidence ∧ d.confidence < 1) ∧
      ((0.7 < (fun _ => (0 : ℝ)) (6 * vs.length + 1) ∧
          ∃ p, ps = [p] ∧ p.cls = "person" ∧ 0.75 ≤ p.confidence ∧ p.confidence < 1) ∨
        ((fun _ => (0 : ℝ)) (6 * vs.length + 1) ≤ 0.7 ∧ ps = [])) :=
  ⟨fun n => by norm_num,
    performObjectDetection_spec (fun _ => (0 : ℝ)) 0 (fun n => by norm_num)⟩

/-! ### Concrete fixtures for the state-machine claims -/

/-- A detection payload carrying severity and location but no accident count. -/
def samplePayload : DetectionData :=
  { location := some "Main St", latitude := none, longitude := none,
    severity := some "critical", accident_count := none }

/-- A pending alert still awaiting a decision. -/
def samplePending : PendingAlert :=
  { id := 7, stream_id := 1, detection_data := samplePayload, frame_timestamp := 0,
    confidence := 1, status := "pending", approved_by := none, approved_at := none,
    rejection_reason := none }

/-- An actively monitored stream with five recorded accidents. -/
def sampleStream : StreamRec :=
  { id := 1, url := "cam-1", location := "Main St", latitude := none, longitude := none,
    status := "active", is_processing := true, last_processed := some 0,
    accident_count := 5 }

/-- Server state with one pending alert, one active stream, one live loop. -/
def sampleState : ServerState :=
  { pending_alerts := [samplePending], alerts := [], streams := [sampleStream],
    loops := [1] }

/-- The sample pending alert after a first successful approval. -/
def approvedPending : PendingAlert :=
  { samplePending with
    status := "approved"
    approved_by := some "op1"
    approved_at := some 10 }

/-- The sample stream after the first approval. -/
def alertedStream : StreamRec :=
  { sampleStream with status := "alert", accident_count := 1 }

/-- Server state after the first approval of the sample pending alert: the
alert is in the terminal state `approved` and its final Alert exists. -/
def stateApproved : ServerState :=
  { pending_alerts := [approvedPending],
    alerts := [alertOfPending samplePending 10],
    streams := [alertedStream],
    loops := [1] }

/-- C1: evaluation at the failing input.  On a pending alert already in the
terminal state `approved`, a second approve call succeeds again (no
`InvalidState`), mutates the record (the decision timestamp moves from 10
to 20), and inserts a second Alert; a reject call on the same terminal
record also succeeds. -/
theorem approve_after_terminal_succeeds_again :
    (approvePendingAlert stateApproved 7 (some "op2") 20).isOk = true ∧
    ((approvePendingAlert stateApproved 7 (some "op2") 20).toOption.map
      fun s => s.alerts.length) = some 2 ∧
    ((approvePendingAlert stateApproved 7 (some "op2") 20).toOption.map
      fun s => s.pending_alerts.map PendingAlert.approved_at) = some [some 20] ∧
    (rejectPendingAlert stateApproved 7 (some "op2") none 20).isOk = true ∧
    ((rejectPendingAlert stateApproved 7 (some "op2") none 20).toOption.map
      fun s => s.pending_alerts.map PendingAlert.status) = some ["rejected"] := by
  decide

/-- C2 counterexample: on a stream that is already `active` with a live
polling loop, `startMonitoring` does not fail with an already-monitoring
error; it succeeds and registers a second polling loop for the same stream. -/
theorem startMonitoring_on_active_spawns_second_loop :
    (startMonitoring sampleState 1 5).isOk = true ∧
    ((startMonitoring sampleState 1 5).toOption.map fun s => s.loops) = some [1, 1] := by
  decide

/-- C2 amended: `startMonitoring` performs no already-active check — on any
stream it finds, even one already `active` with monitoring in progress, it
succeeds, re-marks the stream active, and spawns an additional polling
loop. -/
theorem startMonitoring_always_succeeds (s : ServerState) (id now : ℕ) (st : StreamRec)
    (hfind : findStream s.streams id = some st)
    (hactive : st.status = "active" ∧ st.is_processing = true) :
    ∃ s2, startMonitoring s id now = Except.ok s2 ∧
      s2.loops = s.loops ++ [id] ∧
      ∃ st2, findStream s2.streams id = some st2 ∧
        st2.status = "active" ∧ st2.is_processing = true ∧
        st2.last_processed = some now := by
  have hupd := findStream_map_update s.streams id
    (fun x => { x with status := "active", is_processing := true, last_processed := some now })
    (fun x => rfl) st hfind
  unfold startMonitoring
  rw [hfind]
  exact ⟨_, rfl, rfl, _, hupd, rfl, rfl, rfl⟩

/-- Witness for the amended C2 at the sample active stream. -/
theorem startMonitoring_always_succeeds_witness :
    (findStream sampleState.streams 1 = some sampleStream ∧
      sampleStream.status = "active" ∧ sampleStream.is_processing = true) ∧
    ∃ s2, startMonitoring sampleState 1 5 = Except.ok s2 ∧
      s2.loops = sampleState.loops ++ [1] ∧
      ∃ st2, findStream s2.streams 1 = some st2 ∧
        st2.status = "active" ∧ st2.is_processing = true ∧
        st2.last_processed = some 5 :=
  ⟨⟨rfl, rfl, rfl⟩,
    startMonitoring_always_succeeds sampleState 1 5 sampleStream rfl ⟨rfl, rfl⟩⟩

/-- C3 counterexample: approving the sample pending alert (stream has 5
recorded accidents, payload carries no accident count) succeeds but leaves
the stream with accident count 1, not the incremented 6: the handler sets
`accident_count` to the payload value (default 1) instead of incrementing. -/
theorem approve_overwrites_accident_count :
    (approvePendingAlert sampleState 7 (some "op1") 10).isOk = true ∧
    ((approvePendingAlert sampleState 7 (some "op1") 10).toOption.map
      fun s => s.streams.map StreamRec.accident_count) = some [1] ∧
    ¬ ((approvePendingAlert sampleState 7 (some "op1") 10).toOption.map
      fun s => s.streams.map StreamRec.accident_count) =
        some [sampleStream.accident_count + 1] := by
  decide

/-- C3 amended: a successful approve marks the pending alert approved with
approver and timestamp, appends exactly one Alert whose status is `sent`,
sent timestamp is the decision time, severity/location are copied from the
detection payload (defaulting to `high` / `Unknown` when absent) and
confidence is copied from the pending alert, and re-marks the owning stream
`alert` with its accident count set to the payload's accident count value,
defaulting to 1 — not incremented. -/
theorem approvePendingAlert_spec (s : ServerState) (id : ℕ) (appby : Option String)
    (now : ℕ) (pa : PendingAlert) (st : StreamRec)
    (hpa : findPending s.pending_alerts id = some pa)
    (hstatus : pa.status = "pending")
    (hst : findStream s.streams pa.stream_id = some st) :
    ∃ s2, approvePendingAlert s id appby now = Except.ok s2 ∧
      (∃ pa2, findPending s2.pending_alerts id = some pa2 ∧
        pa2.status = "approved" ∧ pa2.approved_by = some (appby.getD "system") ∧
        pa2.approved_at = some now) ∧
      s2.alerts = s.alerts ++ [alertOfPending pa now] ∧
      (alertOfPending pa now).status = "sent" ∧
      (alertOfPending pa now).sent_at = now ∧
      (alertOfPending pa now).severity = pa.detection_data.severity.getD "high" ∧
      (alertOfPending pa now).location = pa.detection_data.location.getD "Unknown" ∧
      (alertOfPending pa now).confidence = pa.confidence ∧
      (alertOfPending pa now).type = "accident" ∧
      (∃ st2, findStream s2.streams pa.stream_id = some st2 ∧
        st2.status = "alert" ∧
        st2.accident_count = jsOrOne pa.detection_data.accident_count) ∧
      s2.loops = s.loops := by
  have hupd1 := findPending_map_update s.pending_alerts id
    (fun p => { p with
      status := "approved"
      approved_by := some (appby.getD "system")
      approved_at := some now })
    (fun p => rfl) pa hpa
  have hupd2 := findStream_map_update s.streams pa.stream_id
    (fun x => { x with
      status := "alert"
      accident_count := jsOrOne pa.detection_data.accident_count })
    (fun x => rfl) st hst
  unfold approvePendingAlert
  rw [hpa]
  exact ⟨_, rfl, ⟨_, hupd1, rfl, rfl, rfl⟩,
    rfl, rfl, rfl, rfl, rfl, rfl, rfl, ⟨_, hupd2, rfl, rfl⟩, rfl⟩

/-- Witness for the amended C3 at the sample state. -/
theorem approvePendingAlert_spec_witness :
    (findPending sampleState.pending_alerts 7 = some samplePending ∧
      samplePending.status = "pending" ∧
      findStream sampleState.streams samplePending.stream_id = some sampleStream) ∧
    ∃ s2, approvePendingAlert sampleState 7 (some "op1") 10 = Except.ok s2 ∧
      (∃ pa2, findPending s2.pending_alerts 7 = some pa2 ∧
        pa2.status = "approved" ∧
        pa2.approved_by = some ((some "op1").getD "system") ∧
        pa2.approved_at = some 10) ∧
      s2.alerts = sampleState.alerts ++ [alertOfPending samplePending 10] ∧
      (alertOfPending samplePending 10).status = "sent" ∧
      (alertOfPending samplePending 10).sent_at = 10 ∧
      (alertOfPending samplePending 10).severity =
        samplePending.detection_data.severity.getD "high" ∧
      (alertOfPending samplePending 10).location =
        samplePending.detection_data.location.getD "Unknown" ∧
      (alertOfPending samplePending 10).confidence = samplePending.confidence ∧
      (alertOfPending samplePending 10).type = "accident" ∧
      (∃ st2, findStream s2.streams samplePending.stream_id = some st2 ∧
        st2.status = "alert" ∧
        st2.accident_count = jsOrOne samplePending.detection_data.accident_count) ∧
      s2.loops = sampleState.loops :=
  ⟨⟨rfl, rfl, rfl⟩,
    approvePendingAlert_spec sampleState 7 (some "op1") 10 samplePending sampleStream
      rfl rfl rfl⟩

/-- C9: a successful reject marks the pending alert rejected, recording
approver, timestamp, and the (defaulted) reason, while the alerts table,
the streams table, and the polling loops are left unchanged. -/
theorem rejectPendingAlert_spec (s : ServerState) (id : ℕ)
    (appby reason : Option String) (now : ℕ) (pa : PendingAlert)
    (hpa : findPending s.pending_alerts id = some pa) :
    ∃ s2, rejectPendingAlert s id appby reason now = Except.ok s2 ∧
      s2.alerts = s.alerts ∧
      s2.streams = s.streams ∧
      s2.loops = s.loops ∧
      ∃ pa2, findPending s2.pending_alerts id = some pa2 ∧
        pa2.status = "rejected" ∧
        pa2.approved_by = some (appby.getD "system") ∧
        pa2.approved_at = some now ∧
        pa2.rejection_reason = some (reason.getD "User rejected") := by
  have hupd := findPending_map_update s.pending_alerts id
    (fun p => { p with
      status := "rejected"
      rejection_reason := some (reason.getD "User rejected")
      approved_by := some (appby.getD "system")
      approved_at := some now })
    (fun p => rfl) pa hpa
  unfold rejectPendingAlert
  rw [hpa]
  exact ⟨_, rfl, rfl, rfl, rfl, _, hupd, rfl, rfl, rfl, rfl⟩

/-- Witness for C9 at the sample state (explicit reason supplied). -/
theorem rejectPendingAlert_spec_witness :
    findPending sampleState.pending_alerts 7 = some samplePending ∧
    ∃ s2, rejectPendingAlert sampleState 7 (some "op1") (some "false positive") 42 =
        Except.ok s2 ∧
      s2.alerts = sampleState.alerts ∧
      s2.streams = sampleState.streams ∧
      s2.loops = sampleState.loops ∧
      ∃ pa2, findPending s2.pending_alerts 7 = some pa2 ∧
        pa2.status = "rejected" ∧
        pa2.approved_by = some ((some "op1").getD "system") ∧
        pa2.approved_at = some 42 ∧
        pa2.rejection_reason = some ((some "false positive").getD "User rejected") :=
  ⟨rfl, rejectPendingAlert_spec sampleState 7 (some "op1") (some "false positive") 42
    samplePending rfl⟩

end TrafficWatch
